import Mathlib

/-!
Verification of `src/components/Editor/autocomplete.ts` from obsidian-kanban.

The module wires an autocomplete dropdown (the `@textcomplete` library) and a
flatpickr-based date picker to a textarea. We embed the keyboard handler, the
text-change handler, the picker destroy routine, the teardown closure and the
`onKeyDownCapture` input prop as pure Lean functions over explicit state.

Dates are represented as day numbers (days since 1970-01-01, an `Int`), the
representation underlying JS `Date`/moment day arithmetic; calendar views are
computed with the standard civil-calendar conversion. The helper modules
`datepicker.ts`, `filepicker.ts`, `tagpicker.ts` and `helpers.ts` are not part
of the provided source; where their behavior decides a claim the definition is
modelled from the spec and marked as such in its doc comment.
-/

set_option autoImplicit false

namespace Autocomplete

/-- Day of week of day number `n` with Sunday = 0; day 0 (1970-01-01) was a
Thursday. `Int.emod` is nonnegative for a positive modulus. -/
def dayOfWeekSun0 (n : Int) : Int :=
  (n + 4) % 7

/-- moment's locale-aware `weekday()`: day of week relative to the locale's
first day of week `dow` (0 = Sunday, 1 = Monday, ...). -/
def localeWeekday (dow n : Int) : Int :=
  (n + 4 - dow) % 7

/-- Civil calendar from a day number (days since 1970-01-01): returns
(year, month, day). Standard era-based conversion. -/
def civilFromDays (n : Int) : Int × Int × Int :=
  let z := n + 719468
  let era := Int.fdiv z 146097
  let doe := z - era * 146097
  let yoe := (doe - doe / 1460 + doe / 36524 - doe / 146096) / 365
  let y := yoe + era * 400
  let doy := doe - (365 * yoe + yoe / 4 - yoe / 100)
  let mp := (5 * doy + 2) / 153
  let d := doy - (153 * mp + 2) / 5 + 1
  let m := if mp < 10 then mp + 3 else mp - 9
  (if m ≤ 2 then y + 1 else y, m, d)

/-- Day number (days since 1970-01-01) of a civil date (year, month, day). -/
def daysFromCivil (y m d : Int) : Int :=
  let y' := if m ≤ 2 then y - 1 else y
  let era := Int.fdiv y' 400
  let yoe := y' - era * 400
  let mp := if m > 2 then m - 3 else m + 9
  let doy := (153 * mp + 2) / 5 + d - 1
  let doe := yoe * 365 + yoe / 4 - yoe / 100 + doy
  era * 146097 + doe - 719468

/-- Modelled from the spec: `toNextMonth` lives in `datepicker.ts`, which is
not among the provided sources. Per the spec it wraps to the next calendar
month; the testable property names "the first day of the next calendar month".
-/
def toNextMonth (n : Int) : Int :=
  match civilFromDays n with
  | (y, m, _) => if m = 12 then daysFromCivil (y + 1) 1 1 else daysFromCivil y (m + 1) 1

/-- Modelled from the spec: `toPreviousMonth` lives in `datepicker.ts`, which
is not among the provided sources. Per the spec it wraps to the previous
calendar month; modelled as the last day of the previous month (the day before
the first day of the current month). -/
def toPreviousMonth (n : Int) : Int :=
  match civilFromDays n with
  | (y, m, _) => daysFromCivil y m 1 - 1

/-- Does `s` start with `pre`? The semantics of JS `String.startsWith`, on
character lists. -/
def startsWithChars (s pre : List Char) : Bool :=
  decide (s.take pre.length = pre)

/-- The flatpickr instance state the handler reads: its `selectedDates`
array, as day numbers. -/
structure Flatpickr where
  selectedDates : List Int
  deriving DecidableEq, Repr

/-- The mutable references closed over by `constructAutocomplete`:
`datePickerEl` (is the element non-null), `datePickerInstance`, the
`autocomplete.isShown()` result, and `isAutocompleteVisibleRef.current`.
`instDestroyed`/`elRemoved` record that `destroy()`/`remove()` were called. -/
structure PickerState where
  el : Bool
  inst : Option Flatpickr
  shown : Bool
  visibleRef : Bool
  instDestroyed : Bool
  elRemoved : Bool
  deriving DecidableEq, Repr

/-- `destroyDatePicker` (autocomplete.ts lines 112-120). If the autocomplete
dropdown is not shown it clears the visible ref; it then calls
`datePickerInstance.destroy()` and `datePickerEl.remove()` with no null
guard: a null instance or element raises a TypeError (modelled as `.error`).
The zero-delay `setTimeout` nulling `datePickerEl` is modelled as taking
effect, so `el` is false in the result. -/
def destroyDatePicker (s : PickerState) : Except String PickerState :=
  match s.inst with
  | none => .error "TypeError: datePickerInstance is null"
  | some _ =>
    if s.el then
      .ok { s with visibleRef := s.visibleRef && s.shown,
                   instDestroyed := true, elRemoved := true, el := false }
    else .error "TypeError: datePickerEl is null"

/-- The observable action of one `keydownHandler` invocation. Every
constructor except `passthrough` corresponds to a branch that called
`e.preventDefault()`. -/
inductive KeyEffect where
  /-- The handler returned without touching the event. -/
  | passthrough
  /-- `editor.applySearchResult(active)` then `replaceSelection(anchorText)`:
  the active candidate is applied and the anchor text spliced in. -/
  | anchorApply (anchorText : String)
  /-- `applyDate(d, ...)` splices the formatted date at the trigger location
  (per the spec for `applyDate` of `datepicker.ts`), then the picker is
  destroyed. -/
  | confirmDate (d : Int)
  /-- Escape: the picker is destroyed with no date applied. -/
  | cancelPicker
  /-- `datePickerInstance.setDate(d, false)`: the tentative date moves. -/
  | setDate (d : Int)
  deriving DecidableEq, Repr

/-- Whether the branch producing this effect called `e.preventDefault()`. -/
def keyEffectPreventsDefault : KeyEffect → Bool
  | .passthrough => false
  | _ => true

/-- `keydownHandler` (autocomplete.ts lines 133-213) as a pure function.
`activeStrategy` is the strategy id of the active dropdown item's search
result (`none` when there is no active item or it has no search result);
`today` is the day number of `new Date()`; `dow` the locale's first day of
week. In the source the first guard reads `autocomplete.isShown` without
invoking it — a function reference, always truthy — so only the key and the
active item are actually tested. Null dereferences raise (`.error`). -/
def keydownHandler (dow today : Int) (activeStrategy : Option String)
    (key : String) (s : PickerState) : Except String (KeyEffect × PickerState) :=
  if (key == "#" || key == "^") &&
      (match activeStrategy with
       | some id => startsWithChars id.toList "link".toList
       | none => false) then
    .ok (.anchorApply (if key == "^" then "#^" else "#"), s)
  else if !s.el then
    .ok (.passthrough, s)
  else if key == "Enter" then
    match s.inst with
    | none => .error "TypeError: datePickerInstance is null"
    | some fp =>
      match destroyDatePicker s with
      | .error e => .error e
      | .ok s' => .ok (.confirmDate (fp.selectedDates.headD today), s')
  else if key == "Escape" then
    match destroyDatePicker s with
    | .error e => .error e
    | .ok s' => .ok (.cancelPicker, s')
  else
    match s.inst with
    | none => .error "TypeError: datePickerInstance is null"
    | some fp =>
      let cur := fp.selectedDates.headD today
      if key == "ArrowRight" then
        .ok (.setDate (if localeWeekday dow cur = 6 then toNextMonth cur else cur + 1), s)
      else if key == "ArrowLeft" then
        .ok (.setDate (if localeWeekday dow cur = 0 then toPreviousMonth cur else cur - 1), s)
      else if key == "ArrowUp" then
        .ok (.setDate (cur - 7), s)
      else if key == "ArrowDown" then
        .ok (.setDate (cur + 7), s)
      else
        .ok (.passthrough, s)

/-- JS regex `\s`: the whitespace class used by `dateTriggerRegex`. -/
def isJsWhitespace (ch : Char) : Bool :=
  ch == ' ' || ch == '\t' || ch == '\n' || ch == '\r' ||
  ch == '\u000B' || ch == '\u000C' || ch == ' ' || ch == ' ' ||
  decide (0x2000 ≤ ch.toNat ∧ ch.toNat ≤ 0x200A) ||
  ch == ' ' || ch == ' ' || ch == ' ' || ch == ' ' ||
  ch == '　' || ch == '﻿'

/-- Does `b` end with `t`? (`b.drop (b.length - t.length) = t`). -/
def endsWithChars (t b : List Char) : Bool :=
  decide (b.drop (b.length - t.length) = t)

/-- The test of `dateTriggerRegex` (autocomplete.ts lines 46-48):
`(?:^|\s)<escaped trigger>$`. The trigger is escaped with `escapeRegExpStr`
(from `helpers.ts`), so it is matched literally: the text matches iff it ends
with the trigger and the trigger occurrence is at the start of the string or
preceded by a `\s` character. -/
def dateTriggerTest (trigger before : List Char) : Bool :=
  endsWithChars trigger before &&
    (decide (before.length = trigger.length) ||
      (match (before.take (before.length - trigger.length)).getLast? with
       | some ch => isJsWhitespace ch
       | none => false))

/-- The observable action of one `editor.on('change')` invocation on the date
picker (autocomplete.ts lines 217-250). -/
inductive ChangeEffect where
  /-- A new picker element is created at the caret position. -/
  | createPicker
  /-- The existing picker element is moved to the caret position. -/
  | repositionPicker
  /-- `destroyDatePicker()` is invoked on the existing picker. -/
  | destroyPicker
  /-- Nothing happens. -/
  | noEffect
  deriving DecidableEq, Repr

/-- The `editor.on('change')` handler, as a function of the text before the
caret and whether `datePickerEl` is currently non-null. The source tests
`beforeCursor && dateTriggerRegex.test(beforeCursor)`: the JS truthiness of
`beforeCursor` is emptiness of the string. -/
def changeHandler (trigger before : List Char) (el : Bool) : ChangeEffect :=
  if !before.isEmpty && dateTriggerTest trigger before then
    if el then .repositionPicker else .createPicker
  else if el then .destroyPicker
  else .noEffect

/-- The state owned by one `constructAutocomplete` call: the settings flag,
whether `inputRef.current` is non-null, whether the keydown listener is
attached (it is added only when the date picker is not excluded), the picker
references, and whether `autocomplete.destroy()` / `editor.destroy()` ran. -/
structure SessionState where
  excludeDatePicker : Bool
  inputExists : Bool
  listenerAttached : Bool
  picker : PickerState
  autocompleteDestroyed : Bool
  editorDestroyed : Bool
  deriving DecidableEq, Repr

/-- The teardown closure returned by `constructAutocomplete` (lines 253-264):
remove the keydown listener when the date picker feature is on and the input
still exists; destroy the picker when its element is live; then destroy the
Textcomplete and TextareaEditor instances. -/
def cleanup (s : SessionState) : Except String SessionState :=
  let s1 := if !s.excludeDatePicker && s.inputExists then
      { s with listenerAttached := false }
    else s
  if s1.picker.el then
    match destroyDatePicker s1.picker with
    | .error e => .error e
    | .ok p =>
      .ok { s1 with picker := p, autocompleteDestroyed := true, editorDestroyed := true }
  else
    .ok { s1 with autocompleteDestroyed := true, editorDestroyed := true }

/-- Delivery of a keydown event to the input: the handler runs only while the
listener is attached; otherwise the event has no picker effect. -/
def deliverKeydown (dow today : Int) (activeStrategy : Option String)
    (key : String) (s : SessionState) : Except String (KeyEffect × SessionState) :=
  if s.listenerAttached then
    match keydownHandler dow today activeStrategy key s.picker with
    | .error e => .error e
    | .ok (eff, p) => .ok (eff, { s with picker := p })
  else .ok (.passthrough, s)

/-- The `onKeyDownCapture` prop built by `useAutocompleteInputProps`
(lines 308-322), as the ordered list of external handlers it invokes.
`imeComposing` is `getShouldIMEBlockAction()` (from `helpers.ts`: whether an
input-method composition is in progress), `visibleRef` is
`isAutocompleteVisibleRef.current`, `onKeyDownHandled` the value `onKeyDown`
returns, and `hasOnEnter`/`hasOnEscape` whether those optional props were
passed (`onEnter && onEnter(e)`). `onKeyDown` is called unconditionally. -/
def onKeyDownCapture (imeComposing visibleRef : Bool) (key : String)
    (onKeyDownHandled hasOnEnter hasOnEscape : Bool) : List String :=
  if imeComposing || visibleRef then []
  else
    "onKeyDown" ::
      (if onKeyDownHandled then []
       else if key = "Enter" then (if hasOnEnter then ["onEnter"] else [])
       else if key = "Escape" then (if hasOnEscape then ["onEscape"] else [])
       else [])

/-- The dropdown options passed to `new Textcomplete` (lines 98-110). -/
structure DropdownOptions where
  maxCount : Nat
  rotate : Bool
  deriving DecidableEq, Repr

/-- The literal option record from the source: `maxCount: 96, rotate: true`. -/
def dropdownOptions : DropdownOptions :=
  { maxCount := 96, rotate := true }

/-- Modelled from the spec: the `@textcomplete/core` dropdown (an external
library, not part of the sources) renders at most `maxCount` of the
candidates a strategy produced — "no candidate list exceeds 96 entries
regardless of index size (hard cap to bound render cost)". -/
def renderedCandidates {α : Type} (maxCount : Nat) (results : List α) : List α :=
  results.take maxCount

/-- The candidate list the dropdown shows, with the option record the source
passes. -/
def dropdownCandidates {α : Type} (results : List α) : List α :=
  renderedCandidates dropdownOptions.maxCount results

/-- An entry of `metadataCache.getLinkSuggestions()`: the backing file (null
when the target does not exist) and an optional alias. The source field is
named `alias`; that is a reserved word here, hence `aliasName`. -/
structure LinkSuggestion where
  file : Option String
  aliasName : Option String
  deriving DecidableEq, Repr

/-- `linkSuggestions` (lines 55-59): the raw suggestions filtered by
`!!suggestion.file` — only entries with a truthy backing file survive. -/
def linkSuggestions (raw : List LinkSuggestion) : List LinkSuggestion :=
  raw.filter (fun s => s.file.isSome)

/-- Is the first list a (not necessarily contiguous) subsequence of the
second? A simple fuzzy-match predicate. -/
def isFuzzySubseq : List Char → List Char → Bool
  | [], _ => true
  | _ :: _, [] => false
  | a :: as, b :: bs => if a = b then isFuzzySubseq as bs else isFuzzySubseq (a :: as) bs

/-- Modelled from the spec: `new Fuse(linkSuggestions, { keys:
['file.basename', 'alias'] })` is the external fuzzy index; its `search`
returns a ranked subset of the indexed entries, matching on the file basename
or the alias. -/
def fuseSearch (indexed : List LinkSuggestion) (query : List Char) : List LinkSuggestion :=
  indexed.filter (fun s =>
    isFuzzySubseq query (s.file.getD "").toList ||
      isFuzzySubseq query (s.aliasName.getD "").toList)

/-- The candidates the file-link provider can offer: a fuzzy search over the
filtered suggestion list the source indexes. -/
def fileSearchResults (raw : List LinkSuggestion) (query : List Char) : List LinkSuggestion :=
  fuseSearch (linkSuggestions raw) query

lemma isEmpty_eq_false_of_ne_nil {α : Type} {l : List α} (h : l ≠ []) :
    l.isEmpty = false := by
  cases l with
  | nil => exact absurd rfl h
  | cons a t => rfl

lemma endsWithChars_ne_nil {t b : List Char} (ht : t ≠ [])
    (h : endsWithChars t b = true) : b ≠ [] := by
  intro hb
  subst hb
  simp [endsWithChars] at h
  exact ht h

lemma dateTriggerTest_ne_nil {t b : List Char} (ht : t ≠ [])
    (h : dateTriggerTest t b = true) : b ≠ [] := by
  simp only [dateTriggerTest, Bool.and_eq_true] at h
  exact endsWithChars_ne_nil ht h.1

/-- C1: when the date picker is visible (element and instance live) and Enter
is pressed, default handling is prevented and `applyDate` receives the first
explicitly selected date when one exists and the current day otherwise; the
picker is then destroyed (`destroy()` and `remove()` called, element
reference nulled). -/
theorem enter_confirms_selected_or_today (dow today : Int) (strat : Option String)
    (s : PickerState) (fp : Flatpickr)
    (hel : s.el = true) (hinst : s.inst = some fp) :
    keydownHandler dow today strat "Enter" s =
      .ok (.confirmDate (match fp.selectedDates with | [] => today | d :: _ => d),
           { s with visibleRef := s.visibleRef && s.shown,
                    instDestroyed := true, elRemoved := true, el := false }) ∧
    keyEffectPreventsDefault (.confirmDate (fp.selectedDates.headD today)) = true := by
  obtain ⟨el, inst, shown, ref, ides, elr⟩ := s
  obtain ⟨dates⟩ := fp
  simp only at hel hinst
  subst hel hinst
  cases dates <;>
    simp [keydownHandler, destroyDatePicker, keyEffectPreventsDefault]

/-- Witness for C1 at a concrete state: selected date day 2 is applied and
the picker fields are torn down. -/
theorem enter_confirms_selected_or_today_witness :
    keydownHandler 0 0 none "Enter" ⟨true, some ⟨[2]⟩, false, true, false, false⟩ =
      .ok (.confirmDate 2, ⟨false, some ⟨[2]⟩, false, false, true, true⟩) := by
  have h := (enter_confirms_selected_or_today 0 0 none
    ⟨true, some ⟨[2]⟩, false, true, false, false⟩ ⟨[2]⟩ rfl rfl).1
  exact h

/-- C2: while the picker is visible, ArrowRight from a tentative date of
locale weekday 6 moves to the first day of the next calendar month and
otherwise advances by exactly one day; ArrowLeft from weekday 0 moves to the
previous calendar month and otherwise goes back exactly one day. The
tentative date is the first selected date, or today when none is selected. -/
theorem arrow_right_left_month_wrap (dow today : Int) (strat : Option String)
    (s : PickerState) (fp : Flatpickr)
    (hel : s.el = true) (hinst : s.inst = some fp) :
    keydownHandler dow today strat "ArrowRight" s =
      .ok (.setDate (if localeWeekday dow (fp.selectedDates.headD today) = 6
                     then toNextMonth (fp.selectedDates.headD today)
                     else fp.selectedDates.headD today + 1), s) ∧
    keydownHandler dow today strat "ArrowLeft" s =
      .ok (.setDate (if localeWeekday dow (fp.selectedDates.headD today) = 0
                     then toPreviousMonth (fp.selectedDates.headD today)
                     else fp.selectedDates.headD today - 1), s) := by
  obtain ⟨el, inst, shown, ref, ides, elr⟩ := s
  obtain ⟨dates⟩ := fp
  simp only at hel hinst
  subst hel hinst
  constructor <;> simp [keydownHandler]

/-- Witness for C2: day 2 (1970-01-03) is a Saturday in a Sunday-first
locale; ArrowRight lands on day 31 (1970-02-01), the first day of the next
month. -/
theorem arrow_right_left_month_wrap_witness :
    keydownHandler 0 0 none "ArrowRight" ⟨true, some ⟨[2]⟩, false, false, false, false⟩ =
      .ok (.setDate (toNextMonth 2), ⟨true, some ⟨[2]⟩, false, false, false, false⟩) ∧
    toNextMonth 2 = 31 ∧ civilFromDays 31 = (1970, 2, 1) := by
  refine ⟨?_, by decide, by decide⟩
  have h := (arrow_right_left_month_wrap 0 0 none
    ⟨true, some ⟨[2]⟩, false, false, false, false⟩ ⟨[2]⟩ rfl rfl).1
  simpa [localeWeekday] using h

/-- C3: while the picker is visible, ArrowUp moves the tentative date exactly
seven days earlier and ArrowDown exactly seven days later, unconditionally —
no month-boundary branch is consulted on this path. -/
theorem arrow_up_down_seven_days (dow today : Int) (strat : Option String)
    (s : PickerState) (fp : Flatpickr)
    (hel : s.el = true) (hinst : s.inst = some fp) :
    keydownHandler dow today strat "ArrowUp" s =
      .ok (.setDate (fp.selectedDates.headD today - 7), s) ∧
    keydownHandler dow today strat "ArrowDown" s =
      .ok (.setDate (fp.selectedDates.headD today + 7), s) := by
  obtain ⟨el, inst, shown, ref, ides, elr⟩ := s
  simp only at hel hinst
  subst hel hinst
  constructor <;> simp [keydownHandler]

/-- Witness for C3 at a concrete state. -/
theorem arrow_up_down_seven_days_witness :
    keydownHandler 0 0 none "ArrowUp" ⟨true, some ⟨[2]⟩, false, false, false, false⟩ =
      .ok (.setDate (-5), ⟨true, some ⟨[2]⟩, false, false, false, false⟩) := by
  have h := (arrow_up_down_seven_days 0 0 none
    ⟨true, some ⟨[2]⟩, false, false, false, false⟩ ⟨[2]⟩ rfl rfl).1
  exact h

/-- C8: when the key is '#' or '^' and the active dropdown item's search
result belongs to a strategy whose id starts with "link", default handling is
prevented, the candidate is applied, and the anchor text spliced in is "#^"
for '^' and "#" for '#'. (The source reads `autocomplete.isShown` without
invoking it, so whenever the dropdown is shown with such an active item this
branch fires.) -/
theorem anchor_shortcut_applies_candidate (dow today : Int) (id : String)
    (s : PickerState) (hlink : startsWithChars id.toList "link".toList = true) :
    keydownHandler dow today (some id) "#" s = .ok (.anchorApply "#", s) ∧
    keydownHandler dow today (some id) "^" s = .ok (.anchorApply "#^", s) ∧
    keyEffectPreventsDefault (.anchorApply "#") = true ∧
    keyEffectPreventsDefault (.anchorApply "#^") = true := by
  have hlink' : startsWithChars id.data ['l', 'i', 'n', 'k'] = true := by
    simpa [String.toList] using hlink
  refine ⟨?_, ?_, rfl, rfl⟩ <;> simp [keydownHandler, hlink']

/-- Witness for C8 with the strategy id "link-file". -/
theorem anchor_shortcut_applies_candidate_witness :
    keydownHandler 0 0 (some "link-file") "^"
        ⟨false, none, false, false, false, false⟩ =
      .ok (.anchorApply "#^", ⟨false, none, false, false, false, false⟩) := by
  have h := (anchor_shortcut_applies_candidate 0 0 "link-file"
    ⟨false, none, false, false, false, false⟩ (by decide)).2.1
  exact h

/-- C4: on a text-change event (with a nonempty configured trigger token) the
date picker is repositioned iff the text before the caret matches the trigger
pattern — it ends with the trigger preceded by start-of-string or a `\s`
character — and an element already exists; created iff the text matches and
no element exists; and destroyed iff the text does not match and an element
exists. -/
theorem change_triggers_iff_match (trigger before : List Char) (el : Bool)
    (htrig : trigger ≠ []) :
    (changeHandler trigger before el = .repositionPicker ↔
       (dateTriggerTest trigger before = true ∧ el = true)) ∧
    (changeHandler trigger before el = .createPicker ↔
       (dateTriggerTest trigger before = true ∧ el = false)) ∧
    (changeHandler trigger before el = .destroyPicker ↔
       (dateTriggerTest trigger before = false ∧ el = true)) := by
  by_cases hm : dateTriggerTest trigger before = true
  · have hb := dateTriggerTest_ne_nil htrig hm
    have hbe := isEmpty_eq_false_of_ne_nil hb
    cases el <;> simp [changeHandler, hm, hbe]
  · have hm' : dateTriggerTest trigger before = false := by
      simpa using hm
    cases el <;> simp [changeHandler, hm']

/-- Witness for C4: trigger "@" after a space creates a picker; text without
the trigger destroys an existing one. -/
theorem change_triggers_iff_match_witness :
    changeHandler "@".toList "Meeting @".toList false = .createPicker ∧
    changeHandler "@".toList "Meeting".toList true = .destroyPicker := by
  constructor
  · exact ((change_triggers_iff_match "@".toList "Meeting @".toList false
      (by decide)).2.1).mpr (by decide)
  · exact ((change_triggers_iff_match "@".toList "Meeting".toList true
      (by decide)).2.2).mpr (by decide)

/-- C5: the teardown closure removes the keydown listener when the date
picker feature is enabled and the input still exists (after which delivered
keystrokes are pure passthrough), leaves no live picker element (destroying a
live one), and destroys the autocomplete and editor instances. The hypothesis
states that a live picker element has a live flatpickr instance. -/
theorem cleanup_removes_listener_and_destroys (s : SessionState)
    (hlive : s.picker.el = true → s.picker.inst.isSome = true) :
    ∃ s', cleanup s = .ok s' ∧
      (s.excludeDatePicker = false → s.inputExists = true →
        s'.listenerAttached = false ∧
          ∀ (dow today : Int) (strat : Option String) (key : String),
            deliverKeydown dow today strat key s' = .ok (.passthrough, s')) ∧
      s'.picker.el = false ∧
      (s.picker.el = true →
        s'.picker.instDestroyed = true ∧ s'.picker.elRemoved = true) ∧
      s'.autocompleteDestroyed = true ∧ s'.editorDestroyed = true := by
  obtain ⟨exc, inp, lst, ⟨pel, pinst, pshown, pref, pid, per⟩, acD, edD⟩ := s
  cases pel
  case false =>
    cases exc <;> cases inp <;>
      exact ⟨_, rfl, by simp [deliverKeydown], by simp, by simp, by simp, by simp⟩
  case true =>
    simp only at hlive
    cases pinst with
    | none => simp at hlive
    | some fp =>
      cases exc <;> cases inp <;>
        exact ⟨_, rfl, by simp [deliverKeydown], by simp, by simp, by simp, by simp⟩

/-- Witness for C5: teardown of a session with a live picker succeeds. -/
theorem cleanup_removes_listener_and_destroys_witness :
    (cleanup ⟨false, true, true, ⟨true, some ⟨[]⟩, false, true, false, false⟩,
        false, false⟩).isOk = true := by
  obtain ⟨s', hs, -, -, -, -, -⟩ := cleanup_removes_listener_and_destroys
    ⟨false, true, true, ⟨true, some ⟨[]⟩, false, true, false, false⟩, false, false⟩
    (by decide)
  simp [hs, Except.isOk, Except.toBool]

/-- C6 counterexample: invoking `destroyDatePicker` with the picker instance
and element references null is not a no-op — it raises. -/
theorem destroy_absent_picker_raises :
    destroyDatePicker ⟨false, none, false, false, false, false⟩ =
      .error "TypeError: datePickerInstance is null" := rfl

/-- C6 amended: `destroyDatePicker` is not internally guarded — invoking it
when the picker instance or element reference is absent raises a TypeError
rather than silently returning (the source's guards live at the call sites,
which test `datePickerEl` before calling it). -/
theorem destroyDatePicker_unguarded (s : PickerState)
    (h : s.inst = none ∨ s.el = false) :
    (destroyDatePicker s).isOk = false := by
  obtain ⟨el, inst, shown, ref, ides, elr⟩ := s
  simp only at h
  rcases h with h | h
  · subst h
    rfl
  · subst h
    cases inst with
    | none => rfl
    | some fp => rfl

/-- Witness for C6's amended statement at a concrete state. -/
theorem destroyDatePicker_unguarded_witness :
    (destroyDatePicker ⟨true, none, false, false, false, false⟩).isOk = false := by
  exact destroyDatePicker_unguarded ⟨true, none, false, false, false, false⟩ (Or.inl rfl)

/-- C7: for any strategy result list — hence any query and any index size —
the dropdown shows at most 96 candidates, the `maxCount` the source passes. -/
theorem dropdown_at_most_96 {α : Type} (results : List α) :
    (dropdownCandidates results).length ≤ 96 ∧ dropdownOptions.maxCount = 96 := by
  constructor
  · simp only [dropdownCandidates, renderedCandidates, dropdownOptions]
    exact List.length_take_le 96 results
  · rfl

/-- C9: the capture handler invokes no external handler while composition is
in progress or the autocomplete/date-picker is visible; otherwise `onKeyDown`
runs first, and `onEnter`/`onEscape` run only for their key and only when
`onKeyDown` did not report the event handled. -/
theorem capture_routing (ime vis : Bool) (key : String)
    (handled hasE hasEsc : Bool) :
    ((ime || vis) = true → onKeyDownCapture ime vis key handled hasE hasEsc = []) ∧
    ((ime || vis) = false →
       (onKeyDownCapture ime vis key handled hasE hasEsc).head? = some "onKeyDown") ∧
    ("onEnter" ∈ onKeyDownCapture ime vis key handled hasE hasEsc →
       handled = false ∧ key = "Enter") ∧
    ("onEscape" ∈ onKeyDownCapture ime vis key handled hasE hasEsc →
       handled = false ∧ key = "Escape") := by
  cases ime <;> cases vis <;> cases handled <;> cases hasE <;> cases hasEsc <;>
    by_cases hk : key = "Enter" <;> by_cases hk2 : key = "Escape" <;>
      simp_all [onKeyDownCapture]

/-- Witness for C9: with composition in progress nothing is invoked. -/
theorem capture_routing_witness :
    onKeyDownCapture true false "Enter" false true true = [] := by
  exact (capture_routing true false "Enter" false true true).1 rfl

/-- C10: every suggestion the file-link index is built from has a truthy
backing file (the source filters on `!!suggestion.file`), and therefore every
candidate the file search can offer references an existing file. -/
theorem file_candidates_have_file (raw : List LinkSuggestion) (q : List Char)
    (s : LinkSuggestion) :
    (s ∈ linkSuggestions raw → s.file.isSome = true) ∧
    (s ∈ fileSearchResults raw q → s.file.isSome = true) := by
  constructor
  · intro h
    exact (List.mem_filter.mp h).2
  · intro h
    simp only [fileSearchResults, fuseSearch] at h
    have h1 : s ∈ linkSuggestions raw := (List.mem_filter.mp h).1
    exact (List.mem_filter.mp h1).2

/-- Witness for C10: a suggestion with a file survives filtering and
searching; its backing file is present. -/
theorem file_candidates_have_file_witness :
    (⟨some "note", none⟩ : LinkSuggestion).file.isSome = true := by
  exact (file_candidates_have_file
    [⟨some "note", none⟩, ⟨none, some "ghost"⟩] [] ⟨some "note", none⟩).2 (by decide)

end Autocomplete
